import Mathlib

/-!
# Binocular Vision Lab — verification of the optical-geometry core and UI state model

Shallow embedding of the stereoscopic-vision teaching simulator:

* `constants.ts` — default parameter record and slider bounds;
* `App.tsx` — the vergence-recomputation effect and the AI-analysis handler;
* `Controls.tsx` — the shared `Slider` component (number box with clamping,
  range input constrained by the browser to `[min, max]`);
* `SimulationCanvas.tsx` — field-of-view computation, eye-camera placement,
  and the drag-end handler that rewrites the target distance;
* `services/geminiService.ts` — the single fallible network call.

Numbers are modelled as real numbers (`ℝ`).  JavaScript arithmetic on finite
inputs within the documented ranges agrees with real arithmetic up to
rounding, which none of the verified claims depend on.
-/

open Real

namespace BinocularLab

/-! ## Constants (`constants.ts`) -/

/-- `MIN_IPD = 0` — "Cyclops". -/
def MIN_IPD : ℝ := 0

/-- `MAX_IPD = 20000` — "Hammerhead shark simulation". -/
def MAX_IPD : ℝ := 20000

/-- `MIN_DISTANCE = 0.5`. -/
def MIN_DISTANCE : ℝ := 0.5

/-- `MAX_DISTANCE = 10.0`. -/
def MAX_DISTANCE : ℝ := 10.0

/-- Focal-length slider minimum, literal `15` in `Controls.tsx`. -/
def MIN_FOCAL : ℝ := 15

/-- Focal-length slider maximum, literal `200` in `Controls.tsx`. -/
def MAX_FOCAL : ℝ := 200

/-! ## Data model (`types.ts`) -/

/-- The `objectType` selector of `SimulationParams`. -/
inductive ObjectType where
  | cube
  | sphere
  | torus
  | dna
  | custom
deriving DecidableEq

/-- `SimulationParams` from `types.ts` (plus `isViewLocked`, which
`constants.ts` initialises and `SimulationCanvas.tsx` toggles). -/
structure SimulationParams where
  ipd : ℝ
  focalLength : ℝ
  targetDistance : ℝ
  vergenceAngle : ℝ
  objectType : ObjectType
  wireframe : Bool
  cameraSize : ℝ
  objectScale : ℝ
  isPaused : Bool
  isViewLocked : Bool
  showBoundingBox : Bool
  showBackgroundBoundingBox : Bool
  showCameraBoundingBox : Bool
  showFOV : Bool
  customModelUrl : Option String

/-- `DEFAULT_PARAMS` from `constants.ts`. -/
def DEFAULT_PARAMS : SimulationParams where
  ipd := 64
  focalLength := 50
  targetDistance := 2.5
  vergenceAngle := 0
  objectType := .torus
  wireframe := false
  cameraSize := 0.15
  objectScale := 0.5
  isPaused := false
  isViewLocked := false
  showBoundingBox := false
  showBackgroundBoundingBox := false
  showCameraBoundingBox := false
  showFOV := true
  customModelUrl := none

/-! ## Optical geometry

The spec's `OpticalGeometry` module is inlined at three places in the code:
the vergence effect in `App.tsx` and the `fov` memos in `SimulationCanvas`
and `CameraVisualizer`. -/

/-- The convergence half-angle in degrees, as computed inside the `App.tsx`
effect: `halfBaseM = (ipd / 1000) / 2`, `angleRad = atan(halfBaseM /
targetDistance)`, `angleDeg = angleRad * (180 / PI)`. -/
noncomputable def convergenceHalfAngle (ipd targetDistance : ℝ) : ℝ :=
  Real.arctan (ipd / 1000 / 2 / targetDistance) * (180 / Real.pi)

/-- The full vergence angle stored by the effect: `angleDeg * 2`. -/
noncomputable def vergenceOf (ipd targetDistance : ℝ) : ℝ :=
  convergenceHalfAngle ipd targetDistance * 2

/-- The `App.tsx` effect body: overwrite `vergenceAngle` with the value
derived from the current `ipd` and `targetDistance`
(`setParams(p => ({ ...p, vergenceAngle: angleDeg * 2 }))`).

The effect's dependency array is `[params.ipd, params.targetDistance]`; the
model applies it after every event.  On events that leave `ipd` and
`targetDistance` unchanged the overwrite is the identity on any state
already produced by the effect, so the reachable-state set is unchanged. -/
noncomputable def recomputeVergence (p : SimulationParams) : SimulationParams :=
  { p with vergenceAngle := vergenceOf p.ipd p.targetDistance }

/-- The vergence-effect body as a fallible computation.  The effect is
straight-line JavaScript with no `throw` and no error signalling, and JS
arithmetic and `Math.atan` never raise, so the translation has no error
branch: it always returns `Except.ok`.  (At `targetDistance = 0` the real
value carried by `ok` is junk — JS floats would produce `atan(±Infinity)` —
but no theorem inspects the payload outside `targetDistance > 0`.) -/
noncomputable def computeVergenceExcept (ipd targetDistance : ℝ) : Except String ℝ :=
  Except.ok (vergenceOf ipd targetDistance)

/-- `fov` memo in `SimulationCanvas`:
`sensorHeight = 24; fovRadians = 2 * atan(sensorHeight / (2 * focalLength));
return (fovRadians * 180) / PI`. -/
noncomputable def fieldOfView (focalLength : ℝ) : ℝ :=
  2 * Real.arctan (24 / (2 * focalLength)) * 180 / Real.pi

/-- The identical `fov` memo in `CameraVisualizer`. -/
noncomputable def cameraVisualizerFov (focalLength : ℝ) : ℝ :=
  2 * Real.arctan (24 / (2 * focalLength)) * 180 / Real.pi

/-- `halfBaseLine = (params.ipd * 0.001) / 2` (`SimulationCanvas` and
`CameraVisualizer`). -/
noncomputable def halfBaseLine (ipd : ℝ) : ℝ :=
  ipd * 0.001 / 2

/-- Lateral eye-camera offsets: `CameraVisualizer` places the left camera at
`[-halfBaseLine, 0, camZ]` and the right one at `[halfBaseLine, 0, camZ]`. -/
noncomputable def eyeOffsets (ipd : ℝ) : ℝ × ℝ :=
  (-halfBaseLine ipd, halfBaseLine ipd)

/-! ## UI events (`Controls.tsx`, `SimulationCanvas.tsx`)

Every numeric parameter is edited through the shared `Slider` component,
which renders a number text box and a range input.  The number box parses
its text with `parseFloat` and, only when the result is not `NaN`, calls
`onChange(Math.max(min, Math.min(max, val)))`.  The range input calls
`onChange(parseFloat(e.target.value))`; the browser constrains the emitted
value to `[min, max]`.  `parseFloat` is modelled by its result: `none` for
`NaN`, `some v` otherwise. -/

/-- The number-box `onChange` of `Slider`: keep the current value when the
text does not parse, otherwise clamp the parsed value into `[min, max]`. -/
noncomputable def sliderNumberChange (lo hi cur : ℝ) (parsed : Option ℝ) : ℝ :=
  match parsed with
  | none => cur
  | some v => max lo (min hi v)

/-- The user-interface events that modify `SimulationParams`. -/
inductive Event where
  /-- IPD number box, carrying the `parseFloat` result. -/
  | ipdInput (parsed : Option ℝ)
  /-- IPD range slider. -/
  | ipdSlider (v : ℝ)
  /-- Target-distance number box. -/
  | distanceInput (parsed : Option ℝ)
  /-- Target-distance range slider. -/
  | distanceSlider (v : ℝ)
  /-- Focal-length number box. -/
  | focalInput (parsed : Option ℝ)
  /-- Focal-length range slider. -/
  | focalSlider (v : ℝ)
  /-- Object-scale number box. -/
  | objectScaleInput (parsed : Option ℝ)
  /-- Object-scale range slider. -/
  | objectScaleSlider (v : ℝ)
  /-- Camera-size number box. -/
  | cameraSizeInput (parsed : Option ℝ)
  /-- Camera-size range slider. -/
  | cameraSizeSlider (v : ℝ)
  /-- `SceneContent.handleDragEnd`: the dragged mesh ended at depth
  `zOffset`. -/
  | dragEnd (zOffset : ℝ)
  /-- Object-type buttons. -/
  | setObjectType (t : ObjectType)
  /-- `handleFileUpload`: sets `customModelUrl` and `objectType`. -/
  | uploadModel (url : String)
  | togglePause
  | toggleWireframe
  | toggleBoundingBox
  | toggleBackgroundBoundingBox
  | toggleCameraBoundingBox
  | toggleShowFOV
  | toggleViewLock

/-- Side conditions guaranteed by the browser: a range input only emits
values inside its configured `[min, max]`.  All other events are
unconstrained. -/
def EventValid : Event → Prop
  | .ipdSlider v => MIN_IPD ≤ v ∧ v ≤ MAX_IPD
  | .distanceSlider v => MIN_DISTANCE ≤ v ∧ v ≤ MAX_DISTANCE
  | .focalSlider v => MIN_FOCAL ≤ v ∧ v ≤ MAX_FOCAL
  | .objectScaleSlider v => (0.1 : ℝ) ≤ v ∧ v ≤ (2.0 : ℝ)
  | .cameraSizeSlider v => (0.1 : ℝ) ≤ v ∧ v ≤ (1.0 : ℝ)
  | _ => True

/-- State transition of each event, translated from the `onChange`,
`updateParam`, `handleDragEnd`, `handleFileUpload` and `toggleViewLock`
handlers.  `handleDragEnd` computes
`newDistance = Math.max(0.5, params.targetDistance - zOffset)` and only
clamps from below. -/
noncomputable def applyEvent : Event → SimulationParams → SimulationParams
  | .ipdInput parsed, p =>
      { p with ipd := sliderNumberChange MIN_IPD MAX_IPD p.ipd parsed }
  | .ipdSlider v, p => { p with ipd := v }
  | .distanceInput parsed, p =>
      { p with targetDistance :=
          sliderNumberChange MIN_DISTANCE MAX_DISTANCE p.targetDistance parsed }
  | .distanceSlider v, p => { p with targetDistance := v }
  | .focalInput parsed, p =>
      { p with focalLength := sliderNumberChange MIN_FOCAL MAX_FOCAL p.focalLength parsed }
  | .focalSlider v, p => { p with focalLength := v }
  | .objectScaleInput parsed, p =>
      { p with objectScale := sliderNumberChange 0.1 2.0 p.objectScale parsed }
  | .objectScaleSlider v, p => { p with objectScale := v }
  | .cameraSizeInput parsed, p =>
      { p with cameraSize := sliderNumberChange 0.1 1.0 p.cameraSize parsed }
  | .cameraSizeSlider v, p => { p with cameraSize := v }
  | .dragEnd zOffset, p =>
      { p with targetDistance := max 0.5 (p.targetDistance - zOffset) }
  | .setObjectType t, p => { p with objectType := t }
  | .uploadModel url, p => { p with customModelUrl := some url, objectType := .custom }
  | .togglePause, p => { p with isPaused := !p.isPaused }
  | .toggleWireframe, p => { p with wireframe := !p.wireframe }
  | .toggleBoundingBox, p => { p with showBoundingBox := !p.showBoundingBox }
  | .toggleBackgroundBoundingBox, p =>
      { p with showBackgroundBoundingBox := !p.showBackgroundBoundingBox }
  | .toggleCameraBoundingBox, p =>
      { p with showCameraBoundingBox := !p.showCameraBoundingBox }
  | .toggleShowFOV, p => { p with showFOV := !p.showFOV }
  | .toggleViewLock, p => { p with isViewLocked := !p.isViewLocked }

/-- Parameter states reachable in a session: the defaults after the mount
effect has run, then any sequence of valid events, each followed by the
vergence effect. -/
inductive Reachable : SimulationParams → Prop
  | init : Reachable (recomputeVergence DEFAULT_PARAMS)
  | step {p : SimulationParams} (e : Event) (hv : EventValid e) (hp : Reachable p) :
      Reachable (recomputeVergence (applyEvent e p))

/-! ## AI analysis (`App.tsx`, `services/geminiService.ts`) -/

/-- `AIAnalysisResult` from `types.ts`. -/
structure AIAnalysisResult where
  title : String
  explanation : String
  depthImplications : String
  technicalNote : String

/-- The `App` component state touched by `handleAnalyze`. -/
structure AppState where
  params : SimulationParams
  analysis : Option AIAnalysisResult
  isAnalyzing : Bool
  error : Option String

/-- The message stored on failure: `e.message || "分析失败"` — the thrown
message unless it is falsy (empty), in which case the fallback is used. -/
def errorDisplayMessage (m : String) : String :=
  if m = "" then "分析失败" else m

/-- `App.handleAnalyze`, parameterised by the outcome of the single awaited
`analyzeSimulation` call (`ok` a parsed result, `error` the thrown message:
missing credential, network failure, or empty-response).  The second
component counts how many requests the handler issues — the body contains
exactly one `await` and no retry loop, so it is always `1`. -/
def handleAnalyze (s : AppState) (outcome : Except String AIAnalysisResult) :
    AppState × Nat :=
  let s1 := { s with isAnalyzing := true, error := none }
  match outcome with
  | .ok r => ({ s1 with analysis := some r, isAnalyzing := false }, 1)
  | .error m => ({ s1 with error := some (errorDisplayMessage m), isAnalyzing := false }, 1)

/-! ## Helper lemmas -/

/-- A parsed number-box value is clamped into `[lo, hi]` (given `lo ≤ hi`),
and an unparsed one keeps the current value. -/
theorem sliderNumberChange_some_mem {lo hi : ℝ} (hlohi : lo ≤ hi) (cur v : ℝ) :
    lo ≤ sliderNumberChange lo hi cur (some v) ∧
      sliderNumberChange lo hi cur (some v) ≤ hi :=
  ⟨le_max_left _ _, max_le hlohi (min_le_left _ _)⟩

/-- The number-box update never goes below the slider minimum when the
current value is above it. -/
theorem sliderNumberChange_lower {lo hi cur : ℝ} (h1 : lo ≤ cur) (parsed : Option ℝ) :
    lo ≤ sliderNumberChange lo hi cur parsed := by
  cases parsed with
  | none => exact h1
  | some v => exact le_max_left _ _

/-- The number-box update never goes above the slider maximum when the
current value is below it. -/
theorem sliderNumberChange_upper {lo hi cur : ℝ} (hlohi : lo ≤ hi) (h2 : cur ≤ hi)
    (parsed : Option ℝ) : sliderNumberChange lo hi cur parsed ≤ hi := by
  cases parsed with
  | none => exact h2
  | some v => exact max_le hlohi (min_le_left _ _)

/-- Session invariant, by induction over reachability: `ipd` stays in
`[MIN_IPD, MAX_IPD]`, `focalLength` in `[MIN_FOCAL, MAX_FOCAL]`, and
`targetDistance` never drops below `MIN_DISTANCE`.  (There is no upper
invariant for `targetDistance`: `handleDragEnd` clamps only from below.) -/
theorem reachable_inBounds {p : SimulationParams} (hp : Reachable p) :
    (MIN_IPD ≤ p.ipd ∧ p.ipd ≤ MAX_IPD) ∧
    (MIN_FOCAL ≤ p.focalLength ∧ p.focalLength ≤ MAX_FOCAL) ∧
    MIN_DISTANCE ≤ p.targetDistance := by
  induction hp with
  | init =>
    refine ⟨⟨?_, ?_⟩, ⟨?_, ?_⟩, ?_⟩ <;>
      norm_num [recomputeVergence, DEFAULT_PARAMS, MIN_IPD, MAX_IPD, MIN_FOCAL, MAX_FOCAL,
        MIN_DISTANCE]
  | step e hv hp ih =>
    obtain ⟨⟨h1, h2⟩, ⟨h3, h4⟩, h5⟩ := ih
    cases e with
    | ipdInput parsed =>
        exact ⟨⟨sliderNumberChange_lower h1 parsed,
          sliderNumberChange_upper (by norm_num [MIN_IPD, MAX_IPD]) h2 parsed⟩,
          ⟨h3, h4⟩, h5⟩
    | ipdSlider v => exact ⟨⟨hv.1, hv.2⟩, ⟨h3, h4⟩, h5⟩
    | distanceInput parsed =>
        exact ⟨⟨h1, h2⟩, ⟨h3, h4⟩, sliderNumberChange_lower h5 parsed⟩
    | distanceSlider v => exact ⟨⟨h1, h2⟩, ⟨h3, h4⟩, hv.1⟩
    | focalInput parsed =>
        exact ⟨⟨h1, h2⟩, ⟨sliderNumberChange_lower h3 parsed,
          sliderNumberChange_upper (by norm_num [MIN_FOCAL, MAX_FOCAL]) h4 parsed⟩, h5⟩
    | focalSlider v => exact ⟨⟨h1, h2⟩, ⟨hv.1, hv.2⟩, h5⟩
    | objectScaleInput parsed => exact ⟨⟨h1, h2⟩, ⟨h3, h4⟩, h5⟩
    | objectScaleSlider v => exact ⟨⟨h1, h2⟩, ⟨h3, h4⟩, h5⟩
    | cameraSizeInput parsed => exact ⟨⟨h1, h2⟩, ⟨h3, h4⟩, h5⟩
    | cameraSizeSlider v => exact ⟨⟨h1, h2⟩, ⟨h3, h4⟩, h5⟩
    | dragEnd zOffset => exact ⟨⟨h1, h2⟩, ⟨h3, h4⟩, le_max_left _ _⟩
    | setObjectType t => exact ⟨⟨h1, h2⟩, ⟨h3, h4⟩, h5⟩
    | uploadModel url => exact ⟨⟨h1, h2⟩, ⟨h3, h4⟩, h5⟩
    | togglePause => exact ⟨⟨h1, h2⟩, ⟨h3, h4⟩, h5⟩
    | toggleWireframe => exact ⟨⟨h1, h2⟩, ⟨h3, h4⟩, h5⟩
    | toggleBoundingBox => exact ⟨⟨h1, h2⟩, ⟨h3, h4⟩, h5⟩
    | toggleBackgroundBoundingBox => exact ⟨⟨h1, h2⟩, ⟨h3, h4⟩, h5⟩
    | toggleCameraBoundingBox => exact ⟨⟨h1, h2⟩, ⟨h3, h4⟩, h5⟩
    | toggleShowFOV => exact ⟨⟨h1, h2⟩, ⟨h3, h4⟩, h5⟩
    | toggleViewLock => exact ⟨⟨h1, h2⟩, ⟨h3, h4⟩, h5⟩

/-! ## Claims -/

/-- **C1** — In every reachable parameter state the stored `vergenceAngle`
equals twice `atan((ipd/1000/2) / targetDistance)` converted to degrees: it
is a pure function of `ipd` and `targetDistance`, recomputed by the
`App.tsx` effect whenever either changes, and no user event writes it. -/
theorem vergenceAngle_pure_function (p : SimulationParams) (hp : Reachable p) :
    p.vergenceAngle =
      Real.arctan (p.ipd / 1000 / 2 / p.targetDistance) * (180 / Real.pi) * 2 := by
  cases hp with
  | init => rfl
  | step e hv hq => rfl

/-- Witness for **C1**: the initial state after the mount effect. -/
theorem vergenceAngle_pure_function_witness :
    Reachable (recomputeVergence DEFAULT_PARAMS) ∧
    (recomputeVergence DEFAULT_PARAMS).vergenceAngle =
      Real.arctan (64 / 1000 / 2 / 2.5) * (180 / Real.pi) * 2 :=
  ⟨Reachable.init, vergenceAngle_pure_function _ Reachable.init⟩

/-- **C3** — The two eye cameras sit at symmetric lateral offsets
`∓(ipd/1000)/2` metres along the baseline; at `ipd = 64` the offsets are
`(-0.032, 0.032)`. -/
theorem eyeOffsets_symmetric (ipd : ℝ) :
    eyeOffsets ipd = (-(ipd / 1000 / 2), ipd / 1000 / 2) ∧
    eyeOffsets 64 = (-0.032, 0.032) := by
  constructor
  · simp only [eyeOffsets, halfBaseLine, Prod.mk.injEq, neg_inj]
    constructor <;> ring
  · simp only [eyeOffsets, halfBaseLine, Prod.mk.injEq, neg_inj]
    norm_num

/-- **C7** — When the awaited `analyzeSimulation` call throws,
`handleAnalyze` leaves `params` untouched, drops `isAnalyzing` back to
`false` (re-enabling the button, which is disabled exactly while
`isAnalyzing`), stores a displayed error message, and issues exactly one
request — no retry. -/
theorem handleAnalyze_error_behavior (s : AppState) (msg : String) :
    (handleAnalyze s (Except.error msg)).1.params = s.params ∧
    (handleAnalyze s (Except.error msg)).1.isAnalyzing = false ∧
    (handleAnalyze s (Except.error msg)).1.error = some (errorDisplayMessage msg) ∧
    (handleAnalyze s (Except.error msg)).2 = 1 :=
  ⟨rfl, rfl, rfl, rfl⟩

/-- **C8** — At `ipd = 0` the computed vergence angle is `0` for every
strictly positive target distance (the cyclops case). -/
theorem vergence_zero_at_zero_ipd (d : ℝ) (hd : 0 < d) : vergenceOf 0 d = 0 := by
  simp [vergenceOf, convergenceHalfAngle]

/-- Witness for **C8** at `d = 1`. -/
theorem vergence_zero_at_zero_ipd_witness : (0 : ℝ) < 1 ∧ vergenceOf 0 1 = 0 :=
  ⟨by norm_num, vergence_zero_at_zero_ipd 1 (by norm_num)⟩

/-- **C9** — The vergence effect is idempotent as a state update: running
it twice on unchanged `ipd` and `targetDistance` produces the same state as
running it once. -/
theorem recomputeVergence_idempotent (p : SimulationParams) :
    recomputeVergence (recomputeVergence p) = recomputeVergence p := rfl

/-- **C10** — If the text typed into a slider's number box does not parse
(`parseFloat` yields `NaN`, modelled as `none`), the handler does not call
`onChange` and the whole parameter record is unchanged, for each of the
five sliders. -/
theorem numberInput_nan_no_update (p : SimulationParams) :
    applyEvent (Event.ipdInput none) p = p ∧
    applyEvent (Event.distanceInput none) p = p ∧
    applyEvent (Event.focalInput none) p = p ∧
    applyEvent (Event.objectScaleInput none) p = p ∧
    applyEvent (Event.cameraSizeInput none) p = p :=
  ⟨rfl, rfl, rfl, rfl, rfl⟩

/-- **C4** counterexample — the claim says the computation *fails* (raises
a division-by-zero / domain error) whenever the target distance is
non-positive.  The vergence effect is straight-line code with no error
signalling, and JavaScript arithmetic and `Math.atan` never throw, so at
the non-positive distance `0` it still returns a non-error value.  (In JS
floats the returned value at distance `0` is `2 * atan(Infinity)` in
degrees, i.e. `180`; still no error.) -/
theorem computeVergence_no_failure_cex :
    computeVergenceExcept 64 0 = Except.ok (vergenceOf 64 0) := rfl

/-- **C4** (amended) — the computation never signals an error, and the
caller-side precondition holds: every reachable state has
`targetDistance ≥ MIN_DISTANCE = 0.5 > 0` (the slider is bounded below by
`MIN_DISTANCE` and `handleDragEnd` clamps with `Math.max(0.5, ·)`), so the
formula is only ever evaluated at strictly positive distances. -/
theorem computeVergence_total_under_clamp (p : SimulationParams) (hp : Reachable p) :
    0 < p.targetDistance ∧
    computeVergenceExcept p.ipd p.targetDistance =
      Except.ok (vergenceOf p.ipd p.targetDistance) := by
  refine ⟨lt_of_lt_of_le ?_ (reachable_inBounds hp).2.2, rfl⟩
  norm_num [MIN_DISTANCE]

/-- Witness for **C4** (amended): the initial state after the mount
effect. -/
theorem computeVergence_total_under_clamp_witness :
    0 < (recomputeVergence DEFAULT_PARAMS).targetDistance ∧
    computeVergenceExcept (recomputeVergence DEFAULT_PARAMS).ipd
        (recomputeVergence DEFAULT_PARAMS).targetDistance =
      Except.ok (vergenceOf (recomputeVergence DEFAULT_PARAMS).ipd
        (recomputeVergence DEFAULT_PARAMS).targetDistance) :=
  computeVergence_total_under_clamp _ Reachable.init

/-- **C5** counterexample — the claim says `targetDistance` stays within
`[MIN_DISTANCE, MAX_DISTANCE] = [0.5, 10]` in every reachable state.
`SceneContent.handleDragEnd` computes
`Math.max(0.5, targetDistance - zOffset)` and does not clamp from above:
dragging the target to depth `zOffset = -20` from the default state yields
`targetDistance = 22.5 > 10`. -/
theorem targetDistance_exceeds_max_cex :
    Reachable (recomputeVergence (applyEvent (Event.dragEnd (-20))
      (recomputeVergence DEFAULT_PARAMS))) ∧
    MAX_DISTANCE < (recomputeVergence (applyEvent (Event.dragEnd (-20))
      (recomputeVergence DEFAULT_PARAMS))).targetDistance := by
  refine ⟨Reachable.step _ trivial Reachable.init, ?_⟩
  show MAX_DISTANCE < max 0.5 (DEFAULT_PARAMS.targetDistance - (-20))
  norm_num [MAX_DISTANCE, DEFAULT_PARAMS]

/-- **C5** (amended) — every number-box update is clamped into the
slider's `[min, max]` rather than signalling an error, and in every
reachable state `ipd ∈ [MIN_IPD, MAX_IPD]`, `focalLength ∈ [15, 200]` and
`targetDistance ≥ MIN_DISTANCE`; but `targetDistance` is *not* bounded
above by `MAX_DISTANCE`, because the drag-end handler clamps only from
below. -/
theorem slider_clamp_and_bounds (p : SimulationParams) (hp : Reachable p)
    (lo hi cur v : ℝ) (hlohi : lo ≤ hi) :
    (lo ≤ sliderNumberChange lo hi cur (some v) ∧
      sliderNumberChange lo hi cur (some v) ≤ hi) ∧
    (MIN_IPD ≤ p.ipd ∧ p.ipd ≤ MAX_IPD) ∧
    (MIN_FOCAL ≤ p.focalLength ∧ p.focalLength ≤ MAX_FOCAL) ∧
    MIN_DISTANCE ≤ p.targetDistance :=
  ⟨sliderNumberChange_some_mem hlohi cur v, (reachable_inBounds hp).1,
    (reachable_inBounds hp).2.1, (reachable_inBounds hp).2.2⟩

/-- Witness for **C5** (amended): the initial state, with a concrete
out-of-range entry `42` typed into a `[0, 10]` slider showing `3`. -/
theorem slider_clamp_and_bounds_witness :
    ((0 : ℝ) ≤ sliderNumberChange 0 10 3 (some 42) ∧
      sliderNumberChange 0 10 3 (some 42) ≤ 10) ∧
    (MIN_IPD ≤ (recomputeVergence DEFAULT_PARAMS).ipd ∧
      (recomputeVergence DEFAULT_PARAMS).ipd ≤ MAX_IPD) ∧
    (MIN_FOCAL ≤ (recomputeVergence DEFAULT_PARAMS).focalLength ∧
      (recomputeVergence DEFAULT_PARAMS).focalLength ≤ MAX_FOCAL) ∧
    MIN_DISTANCE ≤ (recomputeVergence DEFAULT_PARAMS).targetDistance :=
  slider_clamp_and_bounds _ Reachable.init 0 10 3 42 (by norm_num)

/-- **C6** — For strictly positive target distance, the convergence
half-angle is monotonically increasing in interpupillary distance, and for
nonnegative interpupillary distance (the valid IPD range starts at
`MIN_IPD = 0`) it is monotonically decreasing in target distance. -/
theorem convergenceHalfAngle_monotone (ipd ipd₁ ipd₂ d d₁ d₂ : ℝ) :
    (0 < d → ipd₁ ≤ ipd₂ →
      convergenceHalfAngle ipd₁ d ≤ convergenceHalfAngle ipd₂ d) ∧
    (0 ≤ ipd → 0 < d₁ → d₁ ≤ d₂ →
      convergenceHalfAngle ipd d₂ ≤ convergenceHalfAngle ipd d₁) := by
  have hpi : (0 : ℝ) ≤ 180 / Real.pi := by positivity
  constructor
  · intro hd hipd
    unfold convergenceHalfAngle
    refine mul_le_mul_of_nonneg_right (Real.arctan_strictMono.monotone ?_) hpi
    gcongr
  · intro hipd hd₁ hd
    unfold convergenceHalfAngle
    refine mul_le_mul_of_nonneg_right (Real.arctan_strictMono.monotone ?_) hpi
    have hx : 0 ≤ ipd / 1000 / 2 := by positivity
    gcongr

/-- Witness for **C6**: half-angle grows from `ipd = 60` to `ipd = 70` at
distance `2`, and shrinks from distance `1` to distance `2` at `ipd = 64`. -/
theorem convergenceHalfAngle_monotone_witness :
    convergenceHalfAngle 60 2 ≤ convergenceHalfAngle 70 2 ∧
    convergenceHalfAngle 64 2 ≤ convergenceHalfAngle 64 1 :=
  ⟨(convergenceHalfAngle_monotone 64 60 70 2 1 2).1 (by norm_num) (by norm_num),
   (convergenceHalfAngle_monotone 64 60 70 2 1 2).2 (by norm_num) (by norm_num)
     (by norm_num)⟩

/-! ### Polynomial bounds on `arctan`, for the numeric field-of-view claim -/

/-- Truncating the arctangent series after the `x^5` term overestimates it
on `[0, ∞)`. -/
theorem arctan_le_taylorUp {x : ℝ} (hx : 0 ≤ x) :
    Real.arctan x ≤ x - x ^ 3 / 3 + x ^ 5 / 5 := by
  have hd : ∀ y : ℝ, HasDerivAt (fun t : ℝ => t - t ^ 3 / 3 + t ^ 5 / 5 - Real.arctan t)
      (1 - (3 : ℕ) * y ^ (3 - 1) / 3 + (5 : ℕ) * y ^ (5 - 1) / 5 - 1 / (1 + y ^ 2)) y :=
    fun y =>
      (((hasDerivAt_id y).sub ((hasDerivAt_pow 3 y).div_const 3)).add
        ((hasDerivAt_pow 5 y).div_const 5)).sub (Real.hasDerivAt_arctan y)
  have hmono : Monotone fun t : ℝ => t - t ^ 3 / 3 + t ^ 5 / 5 - Real.arctan t := by
    refine monotone_of_deriv_nonneg (fun y => (hd y).differentiableAt) fun y => ?_
    rw [(hd y).deriv]
    have hpos : (0 : ℝ) < 1 + y ^ 2 := by positivity
    have h1 : (1 : ℝ) / (1 + y ^ 2) ≤ 1 - y ^ 2 + y ^ 4 := by
      rw [div_le_iff₀ hpos]
      nlinarith [pow_nonneg (sq_nonneg y) 3]
    rw [one_div] at h1
    push_cast
    norm_num
    linarith [h1]
  have hgx : (0 : ℝ) - 0 ^ 3 / 3 + 0 ^ 5 / 5 - Real.arctan 0 ≤
      x - x ^ 3 / 3 + x ^ 5 / 5 - Real.arctan x := hmono hx
  simp only [Real.arctan_zero] at hgx
  norm_num at hgx
  linarith [hgx]

/-- Truncating the arctangent series after the `x^7` term underestimates it
on `[0, ∞)`. -/
theorem taylorLow_le_arctan {x : ℝ} (hx : 0 ≤ x) :
    x - x ^ 3 / 3 + x ^ 5 / 5 - x ^ 7 / 7 ≤ Real.arctan x := by
  have hd : ∀ y : ℝ, HasDerivAt
      (fun t : ℝ => Real.arctan t - (t - t ^ 3 / 3 + t ^ 5 / 5 - t ^ 7 / 7))
      (1 / (1 + y ^ 2) -
        (1 - (3 : ℕ) * y ^ (3 - 1) / 3 + (5 : ℕ) * y ^ (5 - 1) / 5 -
          (7 : ℕ) * y ^ (7 - 1) / 7)) y :=
    fun y =>
      (Real.hasDerivAt_arctan y).sub
        ((((hasDerivAt_id y).sub ((hasDerivAt_pow 3 y).div_const 3)).add
          ((hasDerivAt_pow 5 y).div_const 5)).sub ((hasDerivAt_pow 7 y).div_const 7))
  have hmono : Monotone
      fun t : ℝ => Real.arctan t - (t - t ^ 3 / 3 + t ^ 5 / 5 - t ^ 7 / 7) := by
    refine monotone_of_deriv_nonneg (fun y => (hd y).differentiableAt) fun y => ?_
    rw [(hd y).deriv]
    have hpos : (0 : ℝ) < 1 + y ^ 2 := by positivity
    have h1 : (1 : ℝ) - y ^ 2 + y ^ 4 - y ^ 6 ≤ 1 / (1 + y ^ 2) := by
      rw [le_div_iff₀ hpos]
      nlinarith [pow_nonneg (sq_nonneg y) 4]
    rw [one_div] at h1
    push_cast
    norm_num
    linarith [h1]
  have hgx : Real.arctan 0 - ((0 : ℝ) - 0 ^ 3 / 3 + 0 ^ 5 / 5 - 0 ^ 7 / 7) ≤
      Real.arctan x - (x - x ^ 3 / 3 + x ^ 5 / 5 - x ^ 7 / 7) := hmono hx
  simp only [Real.arctan_zero] at hgx
  norm_num at hgx
  linarith [hgx]

/-- Rational bounds on `arctan (6/25)`, tight enough for the field-of-view
approximation. -/
theorem arctan_six_twentyfifths_bounds :
    (0.2355447 : ℝ) ≤ Real.arctan (6 / 25) ∧ Real.arctan (6 / 25) ≤ 0.2355513 := by
  constructor
  · refine le_trans ?_ (taylorLow_le_arctan (x := 6 / 25) (by norm_num))
    norm_num
  · refine le_trans (arctan_le_taylorUp (x := 6 / 25) (by norm_num)) ?_
    norm_num

/-- **C2** — For every strictly positive focal length, the field of view is
`2 * atan(24 / (2 * focalLength))` in degrees, with the sensor height fixed
at `24` mm, identically at both code sites; at `focalLength = 50` this is
`2 * atan(12/50)` in degrees, within `0.01` of `26.99` degrees. -/
theorem fieldOfView_formula (f : ℝ) (hf : 0 < f) :
    fieldOfView f = 2 * Real.arctan (24 / (2 * f)) * 180 / Real.pi ∧
    cameraVisualizerFov f = fieldOfView f ∧
    fieldOfView 50 = 2 * Real.arctan (12 / 50) * 180 / Real.pi ∧
    |fieldOfView 50 - 26.99| < 0.01 := by
  have harg : (24 : ℝ) / (2 * 50) = 6 / 25 := by norm_num
  have harg2 : (12 : ℝ) / 50 = 6 / 25 := by norm_num
  refine ⟨rfl, rfl, ?_, ?_⟩
  · unfold fieldOfView
    rw [harg, harg2]
  · have hb := arctan_six_twentyfifths_bounds
    have hπl : (3.141592 : ℝ) < Real.pi := Real.pi_gt_d6
    have hπu : Real.pi < 3.141593 := Real.pi_lt_d6
    have hπ0 : (0 : ℝ) < Real.pi := Real.pi_pos
    have hup : fieldOfView 50 < 27 := by
      unfold fieldOfView
      rw [harg, div_lt_iff₀ hπ0]
      nlinarith [hb.2, hπl]
    have hlo : (26.98 : ℝ) < fieldOfView 50 := by
      unfold fieldOfView
      rw [harg, lt_div_iff₀ hπ0]
      nlinarith [hb.1, hπu]
    rw [abs_lt]
    constructor <;> linarith

/-- Witness for **C2** at `f = 50`. -/
theorem fieldOfView_formula_witness :
    fieldOfView 50 = 2 * Real.arctan (24 / (2 * 50)) * 180 / Real.pi ∧
    cameraVisualizerFov 50 = fieldOfView 50 ∧
    fieldOfView 50 = 2 * Real.arctan (12 / 50) * 180 / Real.pi ∧
    |fieldOfView 50 - 26.99| < 0.01 :=
  fieldOfView_formula 50 (by norm_num)

end BinocularLab
